import Mathlib

/-!
Shallow embedding of the unbody plugin registry.

This file embeds the `PluginRegistry` class (registration, bootstrap
transaction, capability tables, service lifecycle, deletion, lookups) and the
capability-typed plugin instances, and proves the specified properties about
them.

The registry methods, asynchronous in the source, are modelled as pure state transformers
over an explicit `RegistryState`.  JavaScript objects used as string-keyed
maps (`this.plugins`, `this.providers`, ...) are modelled as association
lists that preserve insertion order, with JS assignment semantics (existing
key is overwritten in place, new key appended).  Thrown exceptions are
modelled with an explicit error component in the result.  Task invocations
performed through `instance.runTask(name)({})` are additionally recorded in
an event log `(alias, taskName)` so that "invoked exactly once" properties
can be stated; the log is write-only and never influences behaviour.
-/

namespace Unbody

/-- Insertion-ordered association list lookup (JS `obj[key]`, absent keys
yield `undefined`, modelled as `none`). -/
def alookup (l : List (String × α)) (k : String) : Option α :=
  match l with
  | [] => none
  | (k', v) :: rest => if k' = k then some v else alookup rest k

/-- JS `obj[key] = v`: overwrite in place when the key exists, append
otherwise (string-keyed objects preserve insertion order). -/
def aset (l : List (String × α)) (k : String) (v : α) : List (String × α) :=
  match l with
  | [] => [(k, v)]
  | (k', v') :: rest =>
    if k' = k then (k, v) :: rest else (k', v') :: aset rest k v

/-- JS `delete obj[key]`: afterwards the key is absent. -/
def aerase (l : List (String × α)) (k : String) : List (String × α) :=
  l.filter (fun kv => kv.1 ≠ k)

/-- Whether a key is present. -/
def amem (l : List (String × α)) (k : String) : Bool :=
  (alookup l k).isSome

/-- The ten capability types of `PluginType` (`src/lib/plugins-common`). -/
inductive PluginType where
  | provider
  | fileParser
  | storage
  | database
  | text_vectorizer
  | image_vectorizer
  | multimodal_vectorizer
  | reranker
  | generative
  | enhancer
deriving DecidableEq, Repr

/-- The `runtime` field of a manifest: `'service'` or absent. -/
inductive PluginRuntime where
  | service
deriving DecidableEq, Repr

/-- Model of `PluginManifest`: static self-description supplied by the plugin module. -/
structure PluginManifest where
  name : String
  displayName : String
  description : String
  version : String
  type : PluginType
  runtime : Option PluginRuntime
deriving DecidableEq, Repr

/-- Plugin configuration object (`Record<string, any>`); the registry treats
it opaquely, so key/value pairs of strings suffice. -/
abbrev Config := List (String × String)

/-- Behaviour of the plugin module reachable through a `PluginRunner`.

Modelled from the spec: `LocalPluginRunner` is outside the given sources, so
the observable outcome of each runner operation is carried with the
registration.  `getManifest()` fails with a `ManifestError` (never a
`PluginRegistry.Error`); `load()` and `initialize()` either succeed or
throw; `getSchema(config)` optionally yields a parser that either returns
a normalized config or throws a `ZodError`; `runTask(name)` invokes the
named task, which either succeeds or throws. -/
structure PluginBehavior where
  manifest : Option PluginManifest
  loadOk : Bool
  configSchema : Option (Config → Option Config)
  initOk : Bool
  taskOk : String → Bool

/-- Model of `UnbodyPlugins.Registration`: the host-supplied declaration.  `config`
carries the static (or already computed) configuration value; the module
behaviour at `path` travels with the declaration. -/
structure Registration where
  «alias» : String
  path : String
  config : Option Config
  behavior : PluginBehavior

/-- Namespace-based stable hash used for plugin identity.  Models the
third-party `uuid.v5(name, namespace)`: a deterministic pure function of
the name and the namespace constant. -/
def uuidV5 (ns : String) (name : String) : String :=
  "uuid5<" ++ ns ++ "|" ++ name ++ ">"

/-- The `uuid.v5.URL` namespace constant. -/
def uuidV5URL : String := "6ba7b811-9dad-11d1-80b4-00c04fd430c8"

/-- Model of `uuid.v5(plugin.«alias», uuid.v5.URL)` — the identity computed by both
`register` (phase 1) and `registerPlugin`. -/
def pluginIdOf (p : Registration) : String :=
  uuidV5 uuidV5URL p.«alias»

/-- Model of `PluginRunner` state as held by a `LoadedPlugin`: constructor arguments
plus the module behaviour behind it. -/
structure PluginRunner where
  pluginId : String
  pluginPath : String
  pluginConfig : Config
  behavior : PluginBehavior

/-- Model of `LoadedPlugin`: `{id, alias, manifest, runner}`. -/
structure LoadedPlugin where
  id : String
  «alias» : String
  manifest : PluginManifest
  runner : PluginRunner

/-- A row of the persisted plugin-state collection:
`{_id: id, manifest, alias}`. -/
structure StateRow where
  id : String
  manifest : PluginManifest
  «alias» : String

/-- Model of `PluginRegistry.Error.Details` plus the message: the structured
registration error `{message, alias, path, manifest?}`. -/
structure RegError where
  message : String
  «alias» : String
  path : String
  manifest : Option PluginManifest

/-- A thrown JS error: either a `PluginRegistry.Error` (`reg`) or any other
error — `ManifestError`, `ZodError`, a task failure... (`other`).  The
`instanceof PluginRegistry.Error` checks in the source distinguish the two. -/
inductive Err where
  | reg (e : RegError)
  | other (msg : String)

/-- The full mutable state of a `PluginRegistry` plus the persisted-state
collection and the task-invocation event log. -/
structure RegistryState where
  manifests : List (String × PluginManifest)
  plugins : List (String × LoadedPlugin)
  providers : List (String × LoadedPlugin)
  fileParsers : List (String × LoadedPlugin)
  storage : List (String × LoadedPlugin)
  database : List (String × LoadedPlugin)
  enhancers : List (String × LoadedPlugin)
  generative : List (String × LoadedPlugin)
  rerankers : List (String × LoadedPlugin)
  textVectorizers : List (String × LoadedPlugin)
  imageVectorizers : List (String × LoadedPlugin)
  multimodalVectorizers : List (String × LoadedPlugin)
  stateRows : List StateRow
  events : List (String × String)

/-- The freshly constructed registry over an empty state store. -/
def RegistryState.empty : RegistryState :=
  ⟨[], [], [], [], [], [], [], [], [], [], [], [], [], []⟩

/-- Model of `PluginRegistryConfig`: the optional custom config loader receives the
registration, the manifest and a manifest lookup; a `none` result falls
back to the default loader (the `|| defaultConfigLoader(...)` in the
source). -/
structure PluginRegistryConfig where
  configLoader :
    Option (Registration → PluginManifest →
      (String → Option PluginManifest) → Option Config)

/-- Model of `defaultConfigLoader`: the config carried by the registration, defaulting to the
empty object. -/
def defaultConfigLoader (p : Registration) (_m : PluginManifest) : Config :=
  p.config.getD []

/-- Effective configuration resolution inside `registerPlugin`. -/
def resolveConfig (cfg : PluginRegistryConfig)
    (manifests : List (String × PluginManifest))
    (p : Registration) (m : PluginManifest) : Config :=
  match cfg.configLoader with
  | some loader =>
    match loader p m (fun a => alookup manifests a) with
    | some c => c
    | none => defaultConfigLoader p m
  | none => defaultConfigLoader p m

/-- Model of `runner.getManifest()`: yields the manifest or throws a `ManifestError`
(which is not a `PluginRegistry.Error`). -/
def runnerGetManifest (b : PluginBehavior) : Except Err PluginManifest :=
  match b.manifest with
  | some m => Except.ok m
  | none => Except.error (Err.other "ManifestError")

/-- Model of `instance.runTask(name)({})`: succeeds or throws the error of the task. -/
def runTaskE (plugin : LoadedPlugin) (task : String) : Except Err Unit :=
  if plugin.runner.behavior.taskOk task then Except.ok ()
  else Except.error (Err.other ("task failed: " ++ task))

/-- The alias under which the plugin is registered:
`plugin.«alias» || manifest.name` (the empty string is falsy in JS). -/
def resolvedAlias (p : Registration) (m : PluginManifest) : String :=
  if p.«alias» = "" then m.name else p.«alias»

/-- Model of `PluginStateModel.findOne({ alias })`: first state row with the given
alias. -/
def findRowByAlias (rows : List StateRow) (al : String) : Option StateRow :=
  match rows with
  | [] => none
  | r :: rest => if r.«alias» = al then some r else findRowByAlias rest al

/-- Model of `PluginStateModel.deleteOne({ alias })`: remove the first state row with
the given alias. -/
def deleteRowByAlias (rows : List StateRow) (al : String) : List StateRow :=
  match rows with
  | [] => []
  | r :: rest =>
    if r.«alias» = al then rest else r :: deleteRowByAlias rest al

/-- The transactional bootstrap check of `registerPlugin` (source lines
450–464): inside one transaction, read the state row for the alias; if
absent, save a new row `{_id: id, manifest, alias}` and invoke the
`bootstrap` task.  When the bootstrap task throws, the transaction aborts
and the saved row is rolled back; the bootstrap invocation itself has
happened and stays in the event log. -/
def bootstrapTxn (st : RegistryState) (loaded : LoadedPlugin) :
    RegistryState × Option Err :=
  match findRowByAlias st.stateRows loaded.«alias» with
  | some _ => (st, none)
  | none =>
    let ev := st.events ++ [(loaded.«alias», "bootstrap")]
    match runTaskE loaded "bootstrap" with
    | Except.ok _ =>
      ({ st with
          stateRows :=
            st.stateRows ++ [⟨loaded.id, loaded.manifest, loaded.«alias»⟩],
          events := ev }, none)
    | Except.error e => ({ st with events := ev }, some e)

/-- Source lines 466–479: insert the loaded plugin into the flat table and
into the capability table matching `manifest.type`. -/
def insertTables (st : RegistryState) (al : String) (loaded : LoadedPlugin) :
    RegistryState :=
  let st := { st with plugins := aset st.plugins al loaded }
  match loaded.manifest.type with
  | PluginType.provider => { st with providers := aset st.providers al loaded }
  | PluginType.fileParser =>
    { st with fileParsers := aset st.fileParsers al loaded }
  | PluginType.storage => { st with storage := aset st.storage al loaded }
  | PluginType.database => { st with database := aset st.database al loaded }
  | PluginType.text_vectorizer =>
    { st with textVectorizers := aset st.textVectorizers al loaded }
  | PluginType.image_vectorizer =>
    { st with imageVectorizers := aset st.imageVectorizers al loaded }
  | PluginType.multimodal_vectorizer =>
    { st with multimodalVectorizers := aset st.multimodalVectorizers al loaded }
  | PluginType.reranker => { st with rerankers := aset st.rerankers al loaded }
  | PluginType.generative =>
    { st with generative := aset st.generative al loaded }
  | PluginType.enhancer => { st with enhancers := aset st.enhancers al loaded }

/-- Model of `PluginRegistry.registerPlugin(plugin)`: resolve the manifest (caching
it), resolve and validate the configuration, load and initialize the
runner, run the transactional bootstrap check, then insert into the lookup
tables.  A thrown error is returned in the second component together with
the state as mutated so far. -/
def registerPlugin (cfg : PluginRegistryConfig) (st : RegistryState)
    (p : Registration) : RegistryState × Option Err :=
  let id := pluginIdOf p
  match runnerGetManifest p.behavior with
  | Except.error e => (st, some e)
  | Except.ok manifest =>
    let st := { st with manifests := aset st.manifests p.«alias» manifest }
    let config := resolveConfig cfg st.manifests p manifest
    if p.behavior.loadOk then
      let al := resolvedAlias p manifest
      let parsedConfig : Except Err Config :=
        match p.behavior.configSchema with
        | none => Except.ok config
        | some parse =>
          match parse config with
          | some parsed => Except.ok parsed
          | none =>
            Except.error (Err.reg
              ⟨"Invalid plugin config", al, p.path, some manifest⟩)
      match parsedConfig with
      | Except.error e => (st, some e)
      | Except.ok effConfig =>
        if p.behavior.initOk then
          let loaded : LoadedPlugin :=
            ⟨id, al, manifest, ⟨id, p.path, effConfig, p.behavior⟩⟩
          match bootstrapTxn st loaded with
          | (st, some e) => (st, some e)
          | (st, none) => (insertTables st al loaded, none)
        else
          (st, some (Err.reg
            ⟨"Failed to initialize plugin", al, p.path, some manifest⟩))
    else (st, some (Err.other "load failed"))

/-- Phase 1 of `register` (source lines 327–340): for every declaration,
attempt `getManifest()` on a fresh runner and cache the result; an error is
appended to the batch's error list only when it is a
`PluginRegistry.Error` (`e instanceof PluginRegistry.Error && errors.push(e)`). -/
def registerPhase1 (st : RegistryState) (ps : List Registration) :
    RegistryState × List RegError :=
  match ps with
  | [] => (st, [])
  | p :: rest =>
    match runnerGetManifest p.behavior with
    | Except.ok m =>
      registerPhase1 { st with manifests := aset st.manifests p.«alias» m } rest
    | Except.error (Err.reg e) =>
      let (st', errs) := registerPhase1 st rest
      (st', e :: errs)
    | Except.error (Err.other _) => registerPhase1 st rest

/-- Phase 2 of `register` (source lines 341–359): call `registerPlugin` for
every declaration; a thrown `PluginRegistry.Error` is appended as is, any
other thrown error is wrapped into one carrying the alias of the declaration and
path plus the cached manifest if any. -/
def registerPhase2 (cfg : PluginRegistryConfig) (st : RegistryState)
    (ps : List Registration) : RegistryState × List RegError :=
  match ps with
  | [] => (st, [])
  | p :: rest =>
    match registerPlugin cfg st p with
    | (st', none) => registerPhase2 cfg st' rest
    | (st', some (Err.reg e)) =>
      let (st'', errs) := registerPhase2 cfg st' rest
      (st'', e :: errs)
    | (st', some (Err.other _)) =>
      let wrapped : RegError :=
        ⟨"Failed to register plugin", p.«alias», p.path,
          alookup st'.manifests p.«alias»⟩
      let (st'', errs) := registerPhase2 cfg st' rest
      (st'', wrapped :: errs)

/-- Model of `PluginRegistry.register(plugins)`: phase 1 then phase 2; returns the
aggregated `registrationErrors`. -/
def register (cfg : PluginRegistryConfig) (st : RegistryState)
    (ps : List Registration) : RegistryState × List RegError :=
  let (st1, errs1) := registerPhase1 st ps
  let (st2, errs2) := registerPhase2 cfg st1 ps
  (st2, errs1 ++ errs2)

/-- A capability-typed plugin instance: a façade over the `LoadedPlugin`
whose public capability-method set is the `methods` list its class passes
to the `PluginInstance` base constructor; every instance additionally
exposes the generic `runTask` invocation used for lifecycle hooks. -/
structure PluginInstance where
  plugin : LoadedPlugin
  methods : List String

/-- The generic task invocation every instance exposes
(`instance.runTask(name)({})`): delegates to the runner. -/
def PluginInstance.runTask (inst : PluginInstance) (task : String) :
    Except Err Unit :=
  runTaskE inst.plugin task

/-- Model of `RerankerPluginInstance.methods` (`src/lib/plugins/instances/RerankerPlugin.ts`). -/
def rerankerMethods : List String := ["rerank"]

/-- Model of `ProviderPluginInstance` capability methods.  Modelled from the spec:
the `ProviderPlugin.ts` instance class is outside the given sources; the
capability table of the spec lists `connect`, `verifyConnection`,
`listEntrypointOptions`, `handleEntrypointUpdate`. -/
def providerMethods : List String :=
  ["connect", "verifyConnection", "listEntrypointOptions",
    "handleEntrypointUpdate"]

/-- Model of `GenerativePluginInstance` capability methods.  Modelled from the spec:
the class is outside the given sources; the spec lists
`getSupportedModels` and a `generateText`-equivalent. -/
def generativeMethods : List String := ["getSupportedModels", "generateText"]

/-- Capability methods of the remaining instance classes.  Modelled from
the spec: those classes are outside the given sources and the spec only
says each has a capability-specific method set delegated through
`runTask`; a per-type placeholder method stands in for it. -/
def otherCapabilityMethods (t : PluginType) : List String :=
  match t with
  | PluginType.fileParser => ["parseFile"]
  | PluginType.storage => ["storeFile"]
  | PluginType.database => ["executeQuery"]
  | PluginType.text_vectorizer => ["vectorizeText"]
  | PluginType.image_vectorizer => ["vectorizeImage"]
  | PluginType.multimodal_vectorizer => ["vectorizeMultimodal"]
  | PluginType.enhancer => ["enhance"]
  | _ => []

/-- Model of `PluginRegistry.getInstance(plugin)` (source lines 516–545): switch on
`manifest.type`, constructing the capability-typed instance variant. -/
def getInstance (plugin : LoadedPlugin) : PluginInstance :=
  match plugin.manifest.type with
  | PluginType.fileParser =>
    ⟨plugin, otherCapabilityMethods PluginType.fileParser⟩
  | PluginType.provider => ⟨plugin, providerMethods⟩
  | PluginType.storage => ⟨plugin, otherCapabilityMethods PluginType.storage⟩
  | PluginType.text_vectorizer =>
    ⟨plugin, otherCapabilityMethods PluginType.text_vectorizer⟩
  | PluginType.image_vectorizer =>
    ⟨plugin, otherCapabilityMethods PluginType.image_vectorizer⟩
  | PluginType.multimodal_vectorizer =>
    ⟨plugin, otherCapabilityMethods PluginType.multimodal_vectorizer⟩
  | PluginType.reranker => ⟨plugin, rerankerMethods⟩
  | PluginType.database => ⟨plugin, otherCapabilityMethods PluginType.database⟩
  | PluginType.enhancer => ⟨plugin, otherCapabilityMethods PluginType.enhancer⟩
  | PluginType.generative => ⟨plugin, generativeMethods⟩

/-- Model of `PluginRegistry.deletePlugin(alias)` (source lines 482–496): no-op when
the alias is not in the flat table; otherwise invoke the `destroy` task
(errors propagate), delete the state row matching the alias, and remove
the alias from the flat table.  No capability table is touched. -/
def deletePlugin (st : RegistryState) (al : String) :
    RegistryState × Option Err :=
  match alookup st.plugins al with
  | none => (st, none)
  | some plugin =>
    let inst := getInstance plugin
    let ev := st.events ++ [(plugin.«alias», "destroy")]
    match inst.runTask "destroy" with
    | Except.error e => ({ st with events := ev }, some e)
    | Except.ok _ =>
      ({ st with
          events := ev,
          stateRows := deleteRowByAlias st.stateRows al,
          plugins := aerase st.plugins al }, none)

/-- One entry of the catalog view returned by `getPlugins`. -/
structure PluginCatalogEntry where
  «alias» : String
  id : String
  type : PluginType
  name : String
  displayName : String
  description : String
  version : String
deriving DecidableEq, Repr

/-- Model of `PluginRegistry.getPlugins(type?)`. -/
def getPlugins (st : RegistryState) (ty : Option PluginType) :
    List PluginCatalogEntry :=
  let entries := st.plugins.map (fun kv =>
    ({ «alias» := kv.1
       id := kv.2.id
       type := kv.2.manifest.type
       name := kv.2.manifest.name
       displayName := kv.2.manifest.displayName
       description := kv.2.manifest.description
       version := kv.2.manifest.version } : PluginCatalogEntry))
  match ty with
  | some t => entries.filter (fun p => p.type = t)
  | none => entries

/-- Model of `PluginRegistry.getPluginById(id)`. -/
def getPluginById (st : RegistryState) (id : String) : Option LoadedPlugin :=
  (st.plugins.map Prod.snd).find? (fun plugin => plugin.id = id)

/-- Model of `PluginRegistry.getProvider(alias)`: a plain table lookup; an unknown
alias yields `undefined`. -/
def getProvider (st : RegistryState) (al : String) : Option LoadedPlugin :=
  alookup st.providers al

/-- Model of `PluginRegistry.getReranker(alias)`. -/
def getReranker (st : RegistryState) (al : String) : Option LoadedPlugin :=
  alookup st.rerankers al

/-- Model of `plugin.manifest.runtime === service`. -/
def isService (plugin : LoadedPlugin) : Bool :=
  plugin.manifest.runtime = some PluginRuntime.service

/-- Loop body of `startServices` (source lines 591–610): iterate
`Object.values(this.plugins)`; for each service-runtime plugin invoke the
`startService` task; a failure is wrapped into a `PluginRegistry.Error`
naming the plugin and aborts the iteration. -/
def startServicesGo (plugins : List LoadedPlugin)
    (ev : List (String × String)) :
    List (String × String) × Option RegError :=
  match plugins with
  | [] => (ev, none)
  | plugin :: rest =>
    if isService plugin then
      let ev := ev ++ [(plugin.«alias», "startService")]
      match runTaskE plugin "startService" with
      | Except.ok _ => startServicesGo rest ev
      | Except.error _ =>
        (ev, some ⟨"Failed to start plugin service", plugin.«alias»,
          plugin.runner.pluginPath, some plugin.manifest⟩)
    else startServicesGo rest ev

/-- Model of `PluginRegistry.startServices()`. -/
def startServices (st : RegistryState) : RegistryState × Option RegError :=
  let (ev, err) := startServicesGo (st.plugins.map Prod.snd) st.events
  ({ st with events := ev }, err)

/-- Loop body of `stopServices` (source lines 612–623): same iteration, but
every failure is caught and logged (`console.error`), so the loop always
reaches every plugin and the method never throws. -/
def stopServicesGo (plugins : List LoadedPlugin)
    (ev : List (String × String)) : List (String × String) :=
  match plugins with
  | [] => ev
  | plugin :: rest =>
    if isService plugin then
      let ev := ev ++ [(plugin.«alias», "stopService")]
      match runTaskE plugin "stopService" with
      | Except.ok _ => stopServicesGo rest ev
      | Except.error _ => stopServicesGo rest ev
    else stopServicesGo rest ev

/-- Model of `PluginRegistry.stopServices()`: total — the catch inside the loop
swallows every task failure. -/
def stopServices (st : RegistryState) : RegistryState :=
  { st with events := stopServicesGo (st.plugins.map Prod.snd) st.events }

/-- Sample service-runtime plugin used in concrete instantiations: alias
`al`, every task succeeding iff `ok`. -/
def sampleService (al : String) (ok : Bool) : LoadedPlugin :=
  ⟨"id-" ++ al, al,
    ⟨al, al, "", "1", PluginType.provider, some PluginRuntime.service⟩,
    ⟨"id-" ++ al, "/" ++ al, [], ⟨none, true, none, true, fun _ => ok⟩⟩⟩

/-- Sample registration used in concrete instantiations: a provider plugin
whose every runner operation succeeds. -/
def sampleReg (al : String) (path : String) : Registration :=
  ⟨al, path, none,
    ⟨some ⟨al, al, "", "1", PluginType.provider, none⟩, true, none, true,
      fun _ => true⟩⟩

/-- Sample registration whose `bootstrap` task throws. -/
def sampleRegBadBoot (al : String) (path : String) : Registration :=
  ⟨al, path, none,
    ⟨some ⟨al, al, "", "1", PluginType.provider, none⟩, true, none, true,
      fun task => !(task = "bootstrap")⟩⟩

/-- A module whose every registration step succeeds: a manifest, a clean
`load` and `initialize`, no config schema, and a succeeding `bootstrap`
task. -/
def GoodBehavior (b : PluginBehavior) : Prop :=
  (∃ m, b.manifest = some m) ∧ b.loadOk = true ∧ b.configSchema = none ∧
    b.initOk = true ∧ b.taskOk "bootstrap" = true

/-! ## Helper lemmas -/

@[simp]
lemma alookup_nil (k : String) : alookup ([] : List (String × α)) k = none := rfl

@[simp]
lemma alookup_cons (k' k : String) (v : α) (l : List (String × α)) :
    alookup ((k', v) :: l) k = if k' = k then some v else alookup l k := rfl

@[simp]
lemma alookup_aset_self (l : List (String × α)) (k : String) (v : α) :
    alookup (aset l k v) k = some v := by
  induction l with
  | nil => simp [aset]
  | cons kv rest ih =>
    obtain ⟨k', v'⟩ := kv
    by_cases h : k' = k <;> simp [aset, h, ih]

lemma alookup_aerase (l : List (String × α)) (k k' : String) :
    alookup (aerase l k) k' = if k' = k then none else alookup l k' := by
  induction l with
  | nil => simp [aerase]
  | cons kv rest ih =>
    obtain ⟨k₀, v₀⟩ := kv
    by_cases hk : k₀ = k <;> by_cases hk' : k' = k <;>
      by_cases hk0 : k₀ = k' <;> simp_all [aerase, List.filter]

lemma amem_aset (l : List (String × α)) (k k' : String) (v : α)
    (h : amem l k = true) : amem (aset l k' v) k = true := by
  induction l with
  | nil => simp [amem, alookup] at h
  | cons kv rest ih =>
    obtain ⟨k₀, v₀⟩ := kv
    by_cases h0 : k₀ = k'
    · subst h0
      by_cases hk : k₀ = k <;> simp_all [amem, aset, alookup]
    · by_cases hk : k₀ = k <;> simp_all [amem, aset, alookup]

lemma amem_aset_self (l : List (String × α)) (k : String) (v : α) :
    amem (aset l k v) k = true := by
  simp [amem]

lemma findRowByAlias_eq_none (rows : List StateRow) (al : String)
    (h : ∀ r ∈ rows, r.«alias» ≠ al) : findRowByAlias rows al = none := by
  induction rows with
  | nil => rfl
  | cons r rest ih =>
    have hr := h r (by simp)
    simp only [findRowByAlias, if_neg hr]
    exact ih (fun r' hr' => h r' (by simp [hr']))

lemma findRowByAlias_append_last (rows : List StateRow) (row : StateRow)
    (h : ∀ r ∈ rows, r.«alias» ≠ row.«alias») :
    findRowByAlias (rows ++ [row]) row.«alias» = some row := by
  induction rows with
  | nil => simp [findRowByAlias]
  | cons r rest ih =>
    have hr := h r (by simp)
    simp only [List.cons_append, findRowByAlias, if_neg hr]
    exact ih (fun r' hr' => h r' (by simp [hr']))

@[simp]
lemma insertTables_plugins (st : RegistryState) (al : String)
    (loaded : LoadedPlugin) :
    (insertTables st al loaded).plugins = aset st.plugins al loaded := by
  cases h : loaded.manifest.type <;> simp [insertTables, h]

@[simp]
lemma insertTables_stateRows (st : RegistryState) (al : String)
    (loaded : LoadedPlugin) :
    (insertTables st al loaded).stateRows = st.stateRows := by
  cases h : loaded.manifest.type <;> simp [insertTables, h]

@[simp]
lemma insertTables_events (st : RegistryState) (al : String)
    (loaded : LoadedPlugin) :
    (insertTables st al loaded).events = st.events := by
  cases h : loaded.manifest.type <;> simp [insertTables, h]

@[simp]
lemma insertTables_manifests (st : RegistryState) (al : String)
    (loaded : LoadedPlugin) :
    (insertTables st al loaded).manifests = st.manifests := by
  cases h : loaded.manifest.type <;> simp [insertTables, h]

lemma stopServicesGo_events (qs : List LoadedPlugin)
    (ev : List (String × String)) :
    stopServicesGo qs ev =
      ev ++ (qs.filter isService).map (fun q => (q.«alias», "stopService")) := by
  induction qs generalizing ev with
  | nil => simp [stopServicesGo]
  | cons q rest ih =>
    by_cases hs : isService q
    · cases hr : runTaskE q "stopService" <;>
        simp [stopServicesGo, hs, hr, ih, List.filter_cons]
    · simp [stopServicesGo, hs, ih, List.filter_cons]

/-! ## The claims -/

/-- C4. Plugin identity is a deterministic pure function of the alias
string: two registrations carrying the same alias — whatever their paths,
configurations or module behaviours — are assigned the same identity
`uuid.v5(alias, uuid.v5.URL)` by `registerPlugin`. -/
theorem pluginId_deterministic_in_alias (p q : Registration)
    (h : p.«alias» = q.«alias») : pluginIdOf p = pluginIdOf q := by
  simp [pluginIdOf, h]

/-- Witness for C4: two declarations sharing the alias `"p"` but differing
in every other field get the same identity. -/
theorem pluginId_deterministic_in_alias_witness :
    (⟨"p", "/a", none, ⟨none, true, none, true, fun _ => true⟩⟩ :
        Registration).«alias» =
      (⟨"p", "/b", some [("k", "v")], ⟨none, false, none, false,
        fun _ => false⟩⟩ : Registration).«alias» ∧
    pluginIdOf (⟨"p", "/a", none, ⟨none, true, none, true, fun _ => true⟩⟩ :
        Registration) =
      pluginIdOf (⟨"p", "/b", some [("k", "v")], ⟨none, false, none, false,
        fun _ => false⟩⟩ : Registration) :=
  ⟨rfl, pluginId_deterministic_in_alias _ _ rfl⟩

/-- C9. `getProvider(alias)` is a plain lookup into the providers
table: for an alias with no entry it returns `undefined` (modelled `none`),
and it is a total function — it cannot throw. -/
theorem getProvider_absent_returns_none (st : RegistryState) (al : String)
    (h : amem st.providers al = false) : getProvider st al = none := by
  unfold getProvider
  unfold amem at h
  cases halt : alookup st.providers al with
  | none => rfl
  | some v => rw [halt] at h; simp at h

/-- Witness for C9: `getProvider("nonexistent")` on a registry with no
providers returns `none`. -/
theorem getProvider_absent_returns_none_witness :
    amem RegistryState.empty.providers "nonexistent" = false ∧
    getProvider RegistryState.empty "nonexistent" = none :=
  ⟨rfl, getProvider_absent_returns_none RegistryState.empty "nonexistent" rfl⟩

/-- C7. `stopServices()` is best-effort: whatever the task outcomes,
it invokes `stopService` on every service-runtime plugin (and only those),
in order; the catch inside the loop swallows every failure, so the method
is total and never throws. -/
theorem stopServices_invokes_all_services (st : RegistryState) :
    (stopServices st).events =
      st.events ++
        ((st.plugins.map Prod.snd).filter isService).map
          (fun q => (q.«alias», "stopService")) := by
  simp [stopServices, stopServicesGo_events]

lemma getInstance_plugin (plugin : LoadedPlugin) :
    (getInstance plugin).plugin = plugin := by
  cases h : plugin.manifest.type <;> simp [getInstance, h]

/-- C5. The instance constructed for a `reranker` manifest exposes the
capability method `rerank` and nothing of any other capability type, plus
the generic `runTask` invocation used for the lifecycle hooks, which
delegates every named task to the runner of the plugin. -/
theorem reranker_instance_capability_restriction (plugin : LoadedPlugin)
    (h : plugin.manifest.type = PluginType.reranker) :
    (getInstance plugin).methods = ["rerank"] ∧
    (∀ meth ∈ (getInstance plugin).methods, meth = "rerank") ∧
    (∀ meth ∈ providerMethods ++ generativeMethods,
      meth ∉ (getInstance plugin).methods) ∧
    (∀ task, (getInstance plugin).runTask task = runTaskE plugin task) := by
  refine ⟨?_, ?_, ?_, ?_⟩
  · simp [getInstance, h, rerankerMethods]
  · simp [getInstance, h, rerankerMethods]
  · simp only [getInstance, h, rerankerMethods]
    decide
  · intro task
    simp [PluginInstance.runTask, getInstance_plugin]

/-- Witness for C5: a concrete reranker plugin. -/
theorem reranker_instance_capability_restriction_witness :
    (⟨"id1", "rr", ⟨"m", "M", "d", "1.0", PluginType.reranker, none⟩,
        ⟨"id1", "/p", [], ⟨none, true, none, true, fun _ => true⟩⟩⟩ :
      LoadedPlugin).manifest.type = PluginType.reranker ∧
    (getInstance
        (⟨"id1", "rr", ⟨"m", "M", "d", "1.0", PluginType.reranker, none⟩,
          ⟨"id1", "/p", [], ⟨none, true, none, true, fun _ => true⟩⟩⟩ :
        LoadedPlugin)).methods = ["rerank"] :=
  ⟨rfl, (reranker_instance_capability_restriction _ rfl).1⟩

lemma startServicesGo_fail (pre post : List LoadedPlugin) (bad : LoadedPlugin)
    (ev : List (String × String))
    (hpre : ∀ q ∈ pre, isService q = true →
      q.runner.behavior.taskOk "startService" = true)
    (hbad : isService bad = true)
    (hfail : bad.runner.behavior.taskOk "startService" = false) :
    startServicesGo (pre ++ bad :: post) ev =
      (ev ++ (pre.filter isService).map (fun q => (q.«alias», "startService"))
          ++ [(bad.«alias», "startService")],
        some ⟨"Failed to start plugin service", bad.«alias»,
          bad.runner.pluginPath, some bad.manifest⟩) := by
  induction pre generalizing ev with
  | nil => simp [startServicesGo, hbad, runTaskE, hfail]
  | cons q rest ih =>
    have hrest : ∀ q' ∈ rest, isService q' = true →
        q'.runner.behavior.taskOk "startService" = true :=
      fun q' hq' => hpre q' (List.mem_cons_of_mem _ hq')
    by_cases hs : isService q
    · have hq := hpre q (List.mem_cons_self _ _) hs
      have hih := ih (ev ++ [(q.«alias», "startService")]) hrest
      simp [startServicesGo, hs, runTaskE, hq, hih, List.filter_cons,
        List.append_assoc]
    · simp [startServicesGo, hs, ih ev hrest, List.filter_cons]

/-- C6. `startServices()` is fail-fast: when the service plugins before
the k-th all start and the k-th `startService` task of the k-th service plugin
throws, the method surfaces an error naming the alias of that plugin (wrapped
with its manifest and path), `startService` has been invoked exactly on
the service-runtime plugins up to and including the k-th — never on a
later plugin, and never on a plugin whose manifest does not declare
`runtime: 'service'`. -/
theorem startServices_fail_fast (st : RegistryState)
    (pre post : List LoadedPlugin) (bad : LoadedPlugin)
    (hsplit : st.plugins.map Prod.snd = pre ++ bad :: post)
    (hpre : ∀ q ∈ pre, isService q = true →
      q.runner.behavior.taskOk "startService" = true)
    (hbad : isService bad = true)
    (hfail : bad.runner.behavior.taskOk "startService" = false) :
    (startServices st).2 =
      some ⟨"Failed to start plugin service", bad.«alias»,
        bad.runner.pluginPath, some bad.manifest⟩ ∧
    (startServices st).1.events =
      st.events ++
        (pre.filter isService).map (fun q => (q.«alias», "startService")) ++
        [(bad.«alias», "startService")] := by
  have hgo := startServicesGo_fail pre post bad st.events hpre hbad hfail
  constructor
  · simp [startServices, hsplit, hgo]
  · simp [startServices, hsplit, hgo]

/-- Witness for C6: three service plugins, the second of which fails to
start; only the first two receive `startService`. -/
theorem startServices_fail_fast_witness :
    (startServices { RegistryState.empty with
        plugins := [("s1", sampleService "s1" true),
          ("s2", sampleService "s2" false),
          ("s3", sampleService "s3" true)] }).2 =
      some ⟨"Failed to start plugin service", "s2", "/s2",
        some ⟨"s2", "s2", "", "1", PluginType.provider,
          some PluginRuntime.service⟩⟩ ∧
    (startServices { RegistryState.empty with
        plugins := [("s1", sampleService "s1" true),
          ("s2", sampleService "s2" false),
          ("s3", sampleService "s3" true)] }).1.events =
      [("s1", "startService"), ("s2", "startService")] := by
  have h := startServices_fail_fast
    { RegistryState.empty with
        plugins := [("s1", sampleService "s1" true),
          ("s2", sampleService "s2" false),
          ("s3", sampleService "s3" true)] }
    [sampleService "s1" true] [sampleService "s3" true]
    (sampleService "s2" false) rfl
    (by
      intro q hq hs
      simp at hq
      subst hq
      rfl)
    rfl rfl
  refine ⟨by simpa [sampleService] using h.1, ?_⟩
  rw [h.2]
  simp [sampleService, RegistryState.empty, isService, List.filter_cons]

/-- C8. `deletePlugin(alias)` is a no-op for an unknown alias; for a
registered alias it invokes the `destroy` task, deletes the persisted
state row matching the alias, and removes the alias from the flat table,
while every capability-specific table — and hence e.g. `getProvider` —
is left untouched. -/
theorem deletePlugin_removes_flat_keeps_capability (st : RegistryState)
    (al : String) :
    (alookup st.plugins al = none → deletePlugin st al = (st, none)) ∧
    (∀ plugin, alookup st.plugins al = some plugin →
      plugin.runner.behavior.taskOk "destroy" = true →
      (deletePlugin st al).2 = none ∧
      (deletePlugin st al).1.events =
        st.events ++ [(plugin.«alias», "destroy")] ∧
      (deletePlugin st al).1.stateRows = deleteRowByAlias st.stateRows al ∧
      (deletePlugin st al).1.plugins = aerase st.plugins al ∧
      alookup (deletePlugin st al).1.plugins al = none ∧
      (deletePlugin st al).1.providers = st.providers ∧
      (deletePlugin st al).1.fileParsers = st.fileParsers ∧
      (deletePlugin st al).1.storage = st.storage ∧
      (deletePlugin st al).1.database = st.database ∧
      (deletePlugin st al).1.enhancers = st.enhancers ∧
      (deletePlugin st al).1.generative = st.generative ∧
      (deletePlugin st al).1.rerankers = st.rerankers ∧
      (deletePlugin st al).1.textVectorizers = st.textVectorizers ∧
      (deletePlugin st al).1.imageVectorizers = st.imageVectorizers ∧
      (deletePlugin st al).1.multimodalVectorizers =
        st.multimodalVectorizers ∧
      getProvider (deletePlugin st al).1 al = getProvider st al) := by
  constructor
  · intro h
    simp [deletePlugin, h]
  · intro plugin h hok
    have hrun : (getInstance plugin).runTask "destroy" = Except.ok () := by
      simp [PluginInstance.runTask, getInstance_plugin, runTaskE, hok]
    refine ⟨?_, ?_, ?_, ?_, ?_, ?_, ?_, ?_, ?_, ?_, ?_, ?_, ?_, ?_, ?_, ?_⟩ <;>
      simp [deletePlugin, h, hrun, getProvider, alookup_aerase]

/-- Witness for C8: a registered provider plugin is deleted; it leaves the
flat table but `getProvider` still finds it. -/
theorem deletePlugin_removes_flat_keeps_capability_witness :
    (let plugin : LoadedPlugin :=
      ⟨"idp", "pv", ⟨"pv", "PV", "", "1", PluginType.provider, none⟩,
        ⟨"idp", "/pv", [], ⟨none, true, none, true, fun _ => true⟩⟩⟩
    let st : RegistryState :=
      { RegistryState.empty with
          plugins := [("pv", plugin)],
          providers := [("pv", plugin)],
          stateRows := [⟨"idp", plugin.manifest, "pv"⟩] }
    alookup st.plugins "pv" = some plugin ∧
    (deletePlugin st "pv").2 = none ∧
    alookup (deletePlugin st "pv").1.plugins "pv" = none ∧
    (deletePlugin st "pv").1.stateRows = [] ∧
    getProvider (deletePlugin st "pv").1 "pv" = some plugin) := by
  have h := (deletePlugin_removes_flat_keeps_capability
    { RegistryState.empty with
        plugins := [("pv",
          ⟨"idp", "pv", ⟨"pv", "PV", "", "1", PluginType.provider, none⟩,
            ⟨"idp", "/pv", [], ⟨none, true, none, true, fun _ => true⟩⟩⟩)],
        providers := [("pv",
          ⟨"idp", "pv", ⟨"pv", "PV", "", "1", PluginType.provider, none⟩,
            ⟨"idp", "/pv", [], ⟨none, true, none, true, fun _ => true⟩⟩⟩)],
        stateRows := [⟨"idp",
          ⟨"pv", "PV", "", "1", PluginType.provider, none⟩, "pv"⟩] }
    "pv").2 _ rfl rfl
  exact ⟨rfl, h.1, h.2.2.2.2.1, by simpa [deleteRowByAlias] using h.2.2.1,
    by simpa [getProvider] using h.2.2.2.2.2.2.2.2.2.2.2.2.2.2.2⟩

/-- C10. When the `destroy` task throws, `deletePlugin` propagates the
error and none of the deletion steps run: the flat table, every capability
table and the persisted state rows are exactly as before, so the plugin is
still registered. -/
theorem deletePlugin_destroy_failure_preserves_state (st : RegistryState)
    (al : String) (plugin : LoadedPlugin)
    (h : alookup st.plugins al = some plugin)
    (hfail : plugin.runner.behavior.taskOk "destroy" = false) :
    (∃ e, (deletePlugin st al).2 = some e) ∧
    (deletePlugin st al).1.plugins = st.plugins ∧
    (deletePlugin st al).1.stateRows = st.stateRows ∧
    (deletePlugin st al).1.providers = st.providers ∧
    (deletePlugin st al).1.fileParsers = st.fileParsers ∧
    (deletePlugin st al).1.storage = st.storage ∧
    (deletePlugin st al).1.database = st.database ∧
    (deletePlugin st al).1.enhancers = st.enhancers ∧
    (deletePlugin st al).1.generative = st.generative ∧
    (deletePlugin st al).1.rerankers = st.rerankers ∧
    (deletePlugin st al).1.textVectorizers = st.textVectorizers ∧
    (deletePlugin st al).1.imageVectorizers = st.imageVectorizers ∧
    (deletePlugin st al).1.multimodalVectorizers = st.multimodalVectorizers ∧
    alookup (deletePlugin st al).1.plugins al = some plugin := by
  have hrun : (getInstance plugin).runTask "destroy" =
      Except.error (Err.other "task failed: destroy") := by
    simp [PluginInstance.runTask, getInstance_plugin, runTaskE, hfail]
  refine ⟨?_, ?_, ?_, ?_, ?_, ?_, ?_, ?_, ?_, ?_, ?_, ?_, ?_, ?_⟩ <;>
    simp [deletePlugin, h, hrun]

/-- Witness for C10: a registered plugin whose `destroy` throws stays fully
registered. -/
theorem deletePlugin_destroy_failure_preserves_state_witness :
    (let plugin : LoadedPlugin :=
      ⟨"idp", "pv", ⟨"pv", "PV", "", "1", PluginType.provider, none⟩,
        ⟨"idp", "/pv", [], ⟨none, true, none, true, fun _ => false⟩⟩⟩
    let st : RegistryState :=
      { RegistryState.empty with
          plugins := [("pv", plugin)],
          providers := [("pv", plugin)],
          stateRows := [⟨"idp", plugin.manifest, "pv"⟩] }
    alookup st.plugins "pv" = some plugin ∧
    plugin.runner.behavior.taskOk "destroy" = false ∧
    (∃ e, (deletePlugin st "pv").2 = some e) ∧
    (deletePlugin st "pv").1.plugins = st.plugins ∧
    (deletePlugin st "pv").1.stateRows = st.stateRows) := by
  have h := deletePlugin_destroy_failure_preserves_state
    { RegistryState.empty with
        plugins := [("pv",
          ⟨"idp", "pv", ⟨"pv", "PV", "", "1", PluginType.provider, none⟩,
            ⟨"idp", "/pv", [], ⟨none, true, none, true, fun _ => false⟩⟩⟩)],
        providers := [("pv",
          ⟨"idp", "pv", ⟨"pv", "PV", "", "1", PluginType.provider, none⟩,
            ⟨"idp", "/pv", [], ⟨none, true, none, true, fun _ => false⟩⟩⟩)],
        stateRows := [⟨"idp",
          ⟨"pv", "PV", "", "1", PluginType.provider, none⟩, "pv"⟩] }
    "pv" _ rfl rfl
  exact ⟨rfl, rfl, h.1, h.2.1, h.2.2.1⟩

lemma bootstrapTxn_row_exists (st : RegistryState) (loaded : LoadedPlugin)
    (h : (findRowByAlias st.stateRows loaded.«alias»).isSome) :
    bootstrapTxn st loaded = (st, none) := by
  obtain ⟨r, hr⟩ := Option.isSome_iff_exists.mp h
  simp [bootstrapTxn, hr]

/-- Frame lemma: once a state row exists for the alias of a declaration, a
further `registerPlugin` call for that alias — whatever the module
behaviour — leaves the persisted rows and the task-invocation log
untouched (in particular, it invokes no further `bootstrap`). -/
lemma registerPlugin_row_exists_frame (cfg : PluginRegistryConfig)
    (st : RegistryState) (p : Registration) (hal : p.«alias» ≠ "")
    (hrow : (findRowByAlias st.stateRows p.«alias»).isSome) :
    (registerPlugin cfg st p).1.events = st.events ∧
    (registerPlugin cfg st p).1.stateRows = st.stateRows := by
  unfold registerPlugin
  cases hm : runnerGetManifest p.behavior with
  | error e => exact ⟨rfl, rfl⟩
  | ok m =>
    have hra : resolvedAlias p m = p.«alias» := by
      simp [resolvedAlias, hal]
    simp only
    split
    · split
      · exact ⟨rfl, rfl⟩
      · split
        · rename_i effConfig heq
          rw [bootstrapTxn_row_exists _ _ (by simpa [hra] using hrow)]
          simp
        · exact ⟨rfl, rfl⟩
    · exact ⟨rfl, rfl⟩

/-- C1. Exactly-once bootstrap.  Over well-formed persisted state
(the `_id` of every row is the stable hash of its alias) containing no row for
the identity of the declaration, a successful `registerPlugin` invokes the
`bootstrap` task exactly once and appends exactly one state row (keyed by
the identity, carrying the manifest snapshot); a subsequent
`registerPlugin` for any declaration with the same alias invokes
`bootstrap` zero further times and creates no row. -/
theorem registerPlugin_bootstrap_exactly_once (cfg : PluginRegistryConfig)
    (st0 : RegistryState) (p p' : Registration) (m : PluginManifest)
    (hal : p.«alias» ≠ "")
    (hwf : ∀ r ∈ st0.stateRows, r.id = uuidV5 uuidV5URL r.«alias»)
    (hnew : ∀ r ∈ st0.stateRows, r.id ≠ pluginIdOf p)
    (hm : p.behavior.manifest = some m)
    (hload : p.behavior.loadOk = true)
    (hschema : p.behavior.configSchema = none)
    (hinit : p.behavior.initOk = true)
    (hboot : p.behavior.taskOk "bootstrap" = true)
    (hal' : p'.«alias» = p.«alias») :
    (registerPlugin cfg st0 p).2 = none ∧
    (registerPlugin cfg st0 p).1.events =
      st0.events ++ [(p.«alias», "bootstrap")] ∧
    (registerPlugin cfg st0 p).1.stateRows =
      st0.stateRows ++ [⟨pluginIdOf p, m, p.«alias»⟩] ∧
    (registerPlugin cfg (registerPlugin cfg st0 p).1 p').1.events =
      (registerPlugin cfg st0 p).1.events ∧
    (registerPlugin cfg (registerPlugin cfg st0 p).1 p').1.stateRows =
      (registerPlugin cfg st0 p).1.stateRows := by
  have halne : ∀ r ∈ st0.stateRows, r.«alias» ≠ p.«alias» := by
    intro r hr heq
    exact hnew r hr (by rw [hwf r hr, heq]; rfl)
  have hra : resolvedAlias p m = p.«alias» := by
    simp [resolvedAlias, hal]
  have hnone : findRowByAlias st0.stateRows p.«alias» = none :=
    findRowByAlias_eq_none _ _ halne
  have hfirst : registerPlugin cfg st0 p =
      (insertTables
          { st0 with
              manifests := aset st0.manifests p.«alias» m,
              stateRows := st0.stateRows ++ [⟨pluginIdOf p, m, p.«alias»⟩],
              events := st0.events ++ [(p.«alias», "bootstrap")] }
          p.«alias»
          ⟨pluginIdOf p, p.«alias», m,
            ⟨pluginIdOf p, p.path,
              resolveConfig cfg (aset st0.manifests p.«alias» m) p m,
              p.behavior⟩⟩, none) := by
    simp [registerPlugin, runnerGetManifest, hm, hload, hschema, hinit,
      bootstrapTxn, hra, hnone, runTaskE, hboot]
  have hrows : (registerPlugin cfg st0 p).1.stateRows =
      st0.stateRows ++ [⟨pluginIdOf p, m, p.«alias»⟩] := by
    rw [hfirst]
    simp
  have hrow' :
      (findRowByAlias (registerPlugin cfg st0 p).1.stateRows
        p'.«alias»).isSome := by
    rw [hrows, hal']
    have := findRowByAlias_append_last st0.stateRows
      ⟨pluginIdOf p, m, p.«alias»⟩ (by simpa using halne)
    simp only at this
    rw [this]
    rfl
  have hal'' : p'.«alias» ≠ "" := by rw [hal']; exact hal
  refine ⟨by rw [hfirst], by rw [hfirst]; simp, hrows, ?_, ?_⟩
  · exact (registerPlugin_row_exists_frame cfg _ p' hal'' hrow').1
  · exact (registerPlugin_row_exists_frame cfg _ p' hal'' hrow').2

/-- Witness for C1: a fresh registry; registering `p1` bootstraps once and
writes one state row; re-registering the same alias (different path,
simulating a restart) adds nothing. -/
theorem registerPlugin_bootstrap_exactly_once_witness :
    (sampleReg "p1" "/a").«alias» ≠ "" ∧
    (sampleReg "p1" "/b").«alias» = (sampleReg "p1" "/a").«alias» ∧
    (registerPlugin ⟨none⟩ RegistryState.empty (sampleReg "p1" "/a")).2 =
      none ∧
    (registerPlugin ⟨none⟩ RegistryState.empty
        (sampleReg "p1" "/a")).1.events = [("p1", "bootstrap")] ∧
    (registerPlugin ⟨none⟩ RegistryState.empty
        (sampleReg "p1" "/a")).1.stateRows =
      [⟨pluginIdOf (sampleReg "p1" "/a"),
        ⟨"p1", "p1", "", "1", PluginType.provider, none⟩, "p1"⟩] ∧
    (registerPlugin ⟨none⟩
        (registerPlugin ⟨none⟩ RegistryState.empty
          (sampleReg "p1" "/a")).1 (sampleReg "p1" "/b")).1.events =
      (registerPlugin ⟨none⟩ RegistryState.empty
        (sampleReg "p1" "/a")).1.events ∧
    (registerPlugin ⟨none⟩
        (registerPlugin ⟨none⟩ RegistryState.empty
          (sampleReg "p1" "/a")).1 (sampleReg "p1" "/b")).1.stateRows =
      (registerPlugin ⟨none⟩ RegistryState.empty
        (sampleReg "p1" "/a")).1.stateRows := by
  have h := registerPlugin_bootstrap_exactly_once ⟨none⟩ RegistryState.empty
    (sampleReg "p1" "/a") (sampleReg "p1" "/b")
    ⟨"p1", "p1", "", "1", PluginType.provider, none⟩
    (by decide) (by simp [RegistryState.empty])
    (by simp [RegistryState.empty]) rfl rfl rfl rfl rfl rfl
  exact ⟨by decide, rfl, h.1, h.2.1, h.2.2.1, h.2.2.2.1, h.2.2.2.2⟩

/-- C2. A failed bootstrap leaves no trace: when a plugin reaches the
bootstrap transaction over well-formed persisted state with no row for its
identity and the `bootstrap` task throws, `registerPlugin` returns the
error, the transaction rolls the freshly saved row back (the persisted
rows are exactly as before, so no row for the identity exists), and the
plugin enters neither the flat table nor any capability table. -/
theorem registerPlugin_failed_bootstrap_no_state (cfg : PluginRegistryConfig)
    (st0 : RegistryState) (p : Registration) (m : PluginManifest)
    (hal : p.«alias» ≠ "")
    (hwf : ∀ r ∈ st0.stateRows, r.id = uuidV5 uuidV5URL r.«alias»)
    (hnew : ∀ r ∈ st0.stateRows, r.id ≠ pluginIdOf p)
    (hm : p.behavior.manifest = some m)
    (hload : p.behavior.loadOk = true)
    (hschema : p.behavior.configSchema = none)
    (hinit : p.behavior.initOk = true)
    (hboot : p.behavior.taskOk "bootstrap" = false) :
    (∃ e, (registerPlugin cfg st0 p).2 = some e) ∧
    (registerPlugin cfg st0 p).1.stateRows = st0.stateRows ∧
    (∀ r ∈ (registerPlugin cfg st0 p).1.stateRows, r.id ≠ pluginIdOf p) ∧
    (registerPlugin cfg st0 p).1.plugins = st0.plugins ∧
    (registerPlugin cfg st0 p).1.providers = st0.providers ∧
    (registerPlugin cfg st0 p).1.fileParsers = st0.fileParsers ∧
    (registerPlugin cfg st0 p).1.storage = st0.storage ∧
    (registerPlugin cfg st0 p).1.database = st0.database ∧
    (registerPlugin cfg st0 p).1.enhancers = st0.enhancers ∧
    (registerPlugin cfg st0 p).1.generative = st0.generative ∧
    (registerPlugin cfg st0 p).1.rerankers = st0.rerankers ∧
    (registerPlugin cfg st0 p).1.textVectorizers = st0.textVectorizers ∧
    (registerPlugin cfg st0 p).1.imageVectorizers = st0.imageVectorizers ∧
    (registerPlugin cfg st0 p).1.multimodalVectorizers =
      st0.multimodalVectorizers := by
  have halne : ∀ r ∈ st0.stateRows, r.«alias» ≠ p.«alias» := by
    intro r hr heq
    exact hnew r hr (by rw [hwf r hr, heq]; rfl)
  have hra : resolvedAlias p m = p.«alias» := by
    simp [resolvedAlias, hal]
  have hnone : findRowByAlias st0.stateRows p.«alias» = none :=
    findRowByAlias_eq_none _ _ halne
  have hrun : registerPlugin cfg st0 p =
      ({ st0 with
          manifests := aset st0.manifests p.«alias» m,
          events := st0.events ++ [(p.«alias», "bootstrap")] },
        some (Err.other ("task failed: " ++ "bootstrap"))) := by
    simp [registerPlugin, runnerGetManifest, hm, hload, hschema, hinit,
      bootstrapTxn, hra, hnone, runTaskE, hboot]
  refine ⟨⟨_, by rw [hrun]⟩, by rw [hrun], ?_, by rw [hrun], by rw [hrun],
    by rw [hrun], by rw [hrun], by rw [hrun], by rw [hrun], by rw [hrun],
    by rw [hrun], by rw [hrun], by rw [hrun], by rw [hrun]⟩
  rw [hrun]
  exact hnew

/-- Witness for C2: a fresh registry and a plugin whose `bootstrap` throws;
registration fails and the registry keeps no state row and no table
entry. -/
theorem registerPlugin_failed_bootstrap_no_state_witness :
    (sampleRegBadBoot "p1" "/a").«alias» ≠ "" ∧
    (sampleRegBadBoot "p1" "/a").behavior.taskOk "bootstrap" = false ∧
    (∃ e, (registerPlugin ⟨none⟩ RegistryState.empty
      (sampleRegBadBoot "p1" "/a")).2 = some e) ∧
    (registerPlugin ⟨none⟩ RegistryState.empty
      (sampleRegBadBoot "p1" "/a")).1.stateRows = [] ∧
    (registerPlugin ⟨none⟩ RegistryState.empty
      (sampleRegBadBoot "p1" "/a")).1.plugins = [] ∧
    (registerPlugin ⟨none⟩ RegistryState.empty
      (sampleRegBadBoot "p1" "/a")).1.providers = [] := by
  have h := registerPlugin_failed_bootstrap_no_state ⟨none⟩
    RegistryState.empty (sampleRegBadBoot "p1" "/a")
    ⟨"p1", "p1", "", "1", PluginType.provider, none⟩
    (by decide) (by simp [RegistryState.empty])
    (by simp [RegistryState.empty]) rfl rfl rfl rfl rfl
  exact ⟨by decide, rfl, h.1, h.2.1, h.2.2.2.1, h.2.2.2.2.1⟩

lemma registerPhase1_errs (st : RegistryState) (ps : List Registration) :
    (registerPhase1 st ps).2 = [] := by
  induction ps generalizing st with
  | nil => rfl
  | cons p rest ih =>
    cases hm : p.behavior.manifest with
    | some m => simp [registerPhase1, runnerGetManifest, hm, ih]
    | none => simp [registerPhase1, runnerGetManifest, hm, ih]

lemma bootstrapTxn_plugins (st : RegistryState) (loaded : LoadedPlugin) :
    (bootstrapTxn st loaded).1.plugins = st.plugins := by
  unfold bootstrapTxn
  split
  · rfl
  · split <;> rfl

lemma registerPlugin_good (cfg : PluginRegistryConfig) (st : RegistryState)
    (p : Registration) (m : PluginManifest)
    (hm : p.behavior.manifest = some m) (hload : p.behavior.loadOk = true)
    (hschema : p.behavior.configSchema = none)
    (hinit : p.behavior.initOk = true)
    (hboot : p.behavior.taskOk "bootstrap" = true) :
    (registerPlugin cfg st p).2 = none ∧
    ∃ loaded, (registerPlugin cfg st p).1.plugins =
      aset st.plugins (resolvedAlias p m) loaded := by
  cases hrow : findRowByAlias st.stateRows (resolvedAlias p m) with
  | some r =>
    refine ⟨?_, ⟨⟨pluginIdOf p, resolvedAlias p m, m,
        ⟨pluginIdOf p, p.path,
          resolveConfig cfg (aset st.manifests p.«alias» m) p m,
          p.behavior⟩⟩, ?_⟩⟩ <;>
      simp [registerPlugin, runnerGetManifest, hm, hload, hschema, hinit,
        bootstrapTxn, hrow]
  | none =>
    refine ⟨?_, ⟨⟨pluginIdOf p, resolvedAlias p m, m,
        ⟨pluginIdOf p, p.path,
          resolveConfig cfg (aset st.manifests p.«alias» m) p m,
          p.behavior⟩⟩, ?_⟩⟩ <;>
      simp [registerPlugin, runnerGetManifest, hm, hload, hschema, hinit,
        bootstrapTxn, hrow, runTaskE, hboot]

lemma registerPlugin_plugins_mono (cfg : PluginRegistryConfig)
    (st : RegistryState) (p : Registration) (k : String)
    (h : amem st.plugins k = true) :
    amem (registerPlugin cfg st p).1.plugins k = true := by
  unfold registerPlugin
  cases hm : runnerGetManifest p.behavior with
  | error e => exact h
  | ok m =>
    simp only
    split
    · split
      · exact h
      · split
        · split
          · rename_i st2 e heq
            have hbp := congrArg (fun x => x.1.plugins) heq
            simp only at hbp
            rw [bootstrapTxn_plugins] at hbp
            rw [← hbp]
            exact h
          · rename_i st2 heq
            have hbp := congrArg (fun x => x.1.plugins) heq
            simp only at hbp
            rw [bootstrapTxn_plugins] at hbp
            simp only [insertTables_plugins]
            rw [← hbp]
            exact amem_aset _ _ _ _ h
        · exact h
    · exact h

lemma registerPhase2_plugins_mono (cfg : PluginRegistryConfig)
    (st : RegistryState) (ps : List Registration) (k : String)
    (h : amem st.plugins k = true) :
    amem (registerPhase2 cfg st ps).1.plugins k = true := by
  induction ps generalizing st with
  | nil => exact h
  | cons p rest ih =>
    have hmono := registerPlugin_plugins_mono cfg st p k h
    cases hr : registerPlugin cfg st p with
    | mk st' err =>
      rw [hr] at hmono
      cases err with
      | none => simpa [registerPhase2, hr] using ih st' hmono
      | some e =>
        cases e with
        | reg e0 => simpa [registerPhase2, hr] using ih st' hmono
        | other msg => simpa [registerPhase2, hr] using ih st' hmono

lemma registerPhase2_good_all (cfg : PluginRegistryConfig)
    (st : RegistryState) (ps : List Registration)
    (h : ∀ p ∈ ps, GoodBehavior p.behavior) :
    (registerPhase2 cfg st ps).2 = [] ∧
    (∀ p ∈ ps, ∀ m, p.behavior.manifest = some m →
      amem (registerPhase2 cfg st ps).1.plugins (resolvedAlias p m) =
        true) := by
  induction ps generalizing st with
  | nil => simp [registerPhase2]
  | cons p rest ih =>
    obtain ⟨⟨m, hm⟩, hload, hschema, hinit, hboot⟩ :=
      h p (List.mem_cons_self _ _)
    obtain ⟨hnone, loaded, hplug⟩ :=
      registerPlugin_good cfg st p m hm hload hschema hinit hboot
    cases hr : registerPlugin cfg st p with
    | mk st' err =>
      rw [hr] at hnone hplug
      subst hnone
      have hrest := ih st' (fun q hq => h q (List.mem_cons_of_mem _ hq))
      constructor
      · simpa [registerPhase2, hr] using hrest.1
      · intro q hq m' hm'
        rcases List.mem_cons.mp hq with hq | hq
        · subst hq
          rw [hm] at hm'
          injection hm' with hmm
          subst hmm
          have hself : amem st'.plugins (resolvedAlias q m) = true := by
            rw [hplug]
            exact amem_aset_self _ _ _
          simpa [registerPhase2, hr] using
            registerPhase2_plugins_mono cfg st' rest _ hself
        · simpa [registerPhase2, hr] using hrest.2 q hq m' hm'

lemma registerPhase2_one_bad (cfg : PluginRegistryConfig)
    (st : RegistryState) (pre post : List Registration) (bad : Registration)
    (hpre : ∀ p ∈ pre, GoodBehavior p.behavior)
    (hpost : ∀ p ∈ post, GoodBehavior p.behavior)
    (hbad : bad.behavior.manifest = none) :
    (∃ mo, (registerPhase2 cfg st (pre ++ bad :: post)).2 =
      [⟨"Failed to register plugin", bad.«alias», bad.path, mo⟩]) ∧
    (∀ p ∈ pre ++ post, ∀ m, p.behavior.manifest = some m →
      amem (registerPhase2 cfg st (pre ++ bad :: post)).1.plugins
        (resolvedAlias p m) = true) := by
  induction pre generalizing st with
  | nil =>
    have hbadrun : registerPlugin cfg st bad =
        (st, some (Err.other "ManifestError")) := by
      simp [registerPlugin, runnerGetManifest, hbad]
    have hrest := registerPhase2_good_all cfg st post hpost
    constructor
    · exact ⟨alookup st.manifests bad.«alias»,
        by simpa [registerPhase2, hbadrun] using hrest.1⟩
    · intro q hq m' hm'
      simp only [List.nil_append] at hq
      simpa [registerPhase2, hbadrun] using hrest.2 q hq m' hm'
  | cons p pre' ih =>
    obtain ⟨⟨m, hm⟩, hload, hschema, hinit, hboot⟩ :=
      hpre p (List.mem_cons_self _ _)
    obtain ⟨hnone, loaded, hplug⟩ :=
      registerPlugin_good cfg st p m hm hload hschema hinit hboot
    cases hr : registerPlugin cfg st p with
    | mk st' err =>
      rw [hr] at hnone hplug
      subst hnone
      have hrest := ih st' (fun q hq => hpre q (List.mem_cons_of_mem _ hq))
      constructor
      · obtain ⟨mo, hmo⟩ := hrest.1
        exact ⟨mo, by simpa [registerPhase2, hr] using hmo⟩
      · intro q hq m' hm'
        rcases List.mem_cons.mp hq with hq | hq
        · subst hq
          rw [hm] at hm'
          injection hm' with hmm
          subst hmm
          have hself : amem st'.plugins (resolvedAlias q m) = true := by
            rw [hplug]
            exact amem_aset_self _ _ _
          simpa [registerPhase2, hr] using
            registerPhase2_plugins_mono cfg st' (pre' ++ bad :: post) _ hself
        · simpa [registerPhase2, hr] using hrest.2 q hq m' hm'

/-- C3. Partial-failure isolation of batch registration: in a batch
where exactly the `getManifest()` of one declaration fails (a `ManifestError`)
and every other declaration registers cleanly, `register` still registers
all the others (each ends up in the flat table under its alias) and the
returned `registrationErrors` list has exactly one entry, carrying the
alias and path of the failing declaration. -/
theorem register_partial_failure_isolation (cfg : PluginRegistryConfig)
    (st0 : RegistryState) (pre post : List Registration)
    (bad : Registration)
    (hpre : ∀ p ∈ pre, GoodBehavior p.behavior)
    (hpost : ∀ p ∈ post, GoodBehavior p.behavior)
    (hbad : bad.behavior.manifest = none) :
    (∃ mo, (register cfg st0 (pre ++ bad :: post)).2 =
      [⟨"Failed to register plugin", bad.«alias», bad.path, mo⟩]) ∧
    (∀ p ∈ pre ++ post, ∀ m, p.behavior.manifest = some m →
      amem (register cfg st0 (pre ++ bad :: post)).1.plugins
        (resolvedAlias p m) = true) := by
  have h2 := registerPhase2_one_bad cfg
    (registerPhase1 st0 (pre ++ bad :: post)).1 pre post bad hpre hpost hbad
  have h1 := registerPhase1_errs st0 (pre ++ bad :: post)
  constructor
  · obtain ⟨mo, hmo⟩ := h2.1
    exact ⟨mo, by simp [register, h1, hmo]⟩
  · intro q hq m' hm'
    have := h2.2 q hq m' hm'
    simpa [register] using this

/-- Witness for C3: a batch of three declarations whose middle member has a
broken manifest; the other two register and exactly one error is
reported. -/
theorem register_partial_failure_isolation_witness :
    (∀ p ∈ [sampleReg "a" "/a"], GoodBehavior p.behavior) ∧
    (∀ p ∈ [sampleReg "c" "/c"], GoodBehavior p.behavior) ∧
    (⟨"b", "/b", none, ⟨none, true, none, true, fun _ => true⟩⟩ :
      Registration).behavior.manifest = none ∧
    (∃ mo, (register ⟨none⟩ RegistryState.empty
        [sampleReg "a" "/a",
          ⟨"b", "/b", none, ⟨none, true, none, true, fun _ => true⟩⟩,
          sampleReg "c" "/c"]).2 =
      [⟨"Failed to register plugin", "b", "/b", mo⟩]) ∧
    amem (register ⟨none⟩ RegistryState.empty
        [sampleReg "a" "/a",
          ⟨"b", "/b", none, ⟨none, true, none, true, fun _ => true⟩⟩,
          sampleReg "c" "/c"]).1.plugins "a" = true ∧
    amem (register ⟨none⟩ RegistryState.empty
        [sampleReg "a" "/a",
          ⟨"b", "/b", none, ⟨none, true, none, true, fun _ => true⟩⟩,
          sampleReg "c" "/c"]).1.plugins "c" = true := by
  have hgood : ∀ al path, GoodBehavior (sampleReg al path).behavior := by
    intro al path
    exact ⟨⟨_, rfl⟩, rfl, rfl, rfl, rfl⟩
  have h := register_partial_failure_isolation ⟨none⟩ RegistryState.empty
    [sampleReg "a" "/a"] [sampleReg "c" "/c"]
    ⟨"b", "/b", none, ⟨none, true, none, true, fun _ => true⟩⟩
    (by intro p hp; simp at hp; subst hp; exact hgood "a" "/a")
    (by intro p hp; simp at hp; subst hp; exact hgood "c" "/c")
    rfl
  refine ⟨by intro p hp; simp at hp; subst hp; exact hgood "a" "/a",
    by intro p hp; simp at hp; subst hp; exact hgood "c" "/c", rfl,
    h.1, ?_, ?_⟩
  · have := h.2 (sampleReg "a" "/a") (by simp)
      ⟨"a", "a", "", "1", PluginType.provider, none⟩ rfl
    simpa [resolvedAlias, sampleReg] using this
  · have := h.2 (sampleReg "c" "/c") (by simp)
      ⟨"c", "c", "", "1", PluginType.provider, none⟩ rfl
    simpa [resolvedAlias, sampleReg] using this

end Unbody
